import Mathlib

/-!
Shallow embedding of `collector/collector.go` from twistedgrim/ecobee-exporter.

The Go collector walks two fetch results (thermostat snapshots and an
equipment-status summary) and sends Prometheus samples on a channel,
interleaved with log calls.  We model the channel/log stream as a list of
`Emit` events built by explicit accumulator passing: every `ch <- ...` or
`log.*` call appends one event.  `float64` sample values are modelled as
rationals; `strconv.ParseFloat` is modelled by a decimal parser returning
`Option ℚ`.
-/

namespace Ecobee

/-- Runtime block of a thermostat snapshot (fields used by the collector). -/
structure Runtime where
  Connected : Bool
  ActualTemperature : Int
  DesiredCool : Int
  DesiredHeat : Int
  deriving Repr, DecidableEq

/-- Settings block of a thermostat snapshot. -/
structure Settings where
  HvacMode : String
  deriving Repr, DecidableEq

/-- An event in a thermostat's event list.  Go field `Type` is `Type_` here. -/
structure Event where
  Type_ : String
  Running : Bool
  CoolHoldTemp : Int
  HeatHoldTemp : Int
  IsCoolOff : Bool
  IsHeatOff : Bool
  deriving Repr, DecidableEq

/-- A typed capability of a remote sensor.  Go field `Type` is `Type_` here. -/
structure SensorCapability where
  Type_ : String
  Value : String
  deriving Repr, DecidableEq

/-- A remote sensor attached to a thermostat.  Go field `Type` is `Type_`. -/
structure RemoteSensor where
  ID : String
  Name : String
  Type_ : String
  InUse : Bool
  Capability : List SensorCapability
  deriving Repr, DecidableEq

/-- A thermostat snapshot as returned by the primary fetch. -/
structure Thermostat where
  Identifier : String
  Name : String
  Runtime : Runtime
  Settings : Settings
  Events : List Event
  RemoteSensors : List RemoteSensor
  deriving Repr, DecidableEq

/-- One entry of the equipment-status summary returned by the second fetch
(only the fields the collector reads via reflection). -/
structure ThermostatSummary where
  Identifier : String
  Name : String
  Connected : Bool
  CompCool1 : Bool
  AuxHeat1 : Bool
  Fan : Bool
  deriving Repr, DecidableEq

/-- The eleven metric descriptors built once by `NewEcobeeCollector`. -/
inductive Desc where
  | fetchTime
  | actualTemperature
  | targetTemperatureMax
  | targetTemperatureMin
  | currentHvacMode
  | holdTempMetric
  | hvacInOperation
  | temperature
  | humidity
  | occupancy
  | inUse
  deriving Repr, DecidableEq

/-- Label names shared by the plain thermostat (runtime) metrics. -/
def runtimeLabels : List String := ["thermostat_id", "thermostat_name"]

/-- Label names of the sensor metrics: `append(runtime, ...)` in Go. -/
def sensorLabels : List String :=
  runtimeLabels ++ ["sensor_id", "sensor_name", "sensor_type"]

/-- The ordered label-name list of each descriptor, as registered in
`NewEcobeeCollector`. -/
def descLabels : Desc → List String
  | .fetchTime => []
  | .actualTemperature => runtimeLabels
  | .targetTemperatureMax => runtimeLabels
  | .targetTemperatureMin => runtimeLabels
  | .currentHvacMode => runtimeLabels ++ ["current_hvac_mode"]
  | .holdTempMetric => runtimeLabels ++ ["type"]
  | .hvacInOperation => runtimeLabels ++ ["equipment"]
  | .temperature => sensorLabels
  | .humidity => sensorLabels
  | .occupancy => sensorLabels
  | .inUse => sensorLabels

/-- One emitted sample: descriptor, numeric value, ordered label values. -/
structure Sample where
  desc : Desc
  value : ℚ
  labels : List String
  deriving Repr, DecidableEq

/-- One event on the output stream: a channel send of a sample, an error log,
or an info log. -/
inductive Emit where
  | sample (s : Sample)
  | logError (msg : String)
  | logInfo (msg : String)
  deriving Repr, DecidableEq

/-- A single channel send / log call appends one event to the stream. -/
def emit (x : Emit) (acc : List Emit) : List Emit := acc ++ [x]

/-- Numeric value of a list of decimal digit characters (`some 0` on the
empty list; `none` if any character is not a digit). -/
def digitsVal (cs : List Char) : Option Nat :=
  cs.foldl
    (fun acc c =>
      acc.bind fun n => if c.isDigit then some (10 * n + (c.toNat - 48)) else none)
    (some 0)

/-- Model of `strconv.ParseFloat` on plain decimal literals: optional sign,
decimal digits with an optional single fraction point, at least one digit.
Anything else (including the exponent/hex/inf forms, which the sensor data
never uses) fails. -/
def parseFloat? (s : String) : Option ℚ :=
  let cs := s.toList
  let signed : ℚ × List Char :=
    match cs with
    | '-' :: rest => (-1, rest)
    | '+' :: rest => (1, rest)
    | _ => (1, cs)
  match signed.2.splitOn '.' with
  | [a] =>
    if a.isEmpty then none
    else (digitsVal a).map fun n => signed.1 * (n : ℚ)
  | [a, b] =>
    if a.isEmpty ∧ b.isEmpty then none
    else
      (digitsVal a).bind fun na =>
        (digitsVal b).map fun nb =>
          signed.1 * ((na : ℚ) + (nb : ℚ) / ((10 : ℚ) ^ b.length))
  | _ => none

/-- The `switch sc.Type` body of the sensor-capability loop
(`collector.go:185-219`). -/
def collectCapability (sFields : List String) (sc : SensorCapability)
    (acc : List Emit) : List Emit :=
  if sc.Type_ = "temperature" then
    match parseFloat? sc.Value with
    | some v => emit (.sample ⟨.temperature, v / 10, sFields⟩) acc
    | none => emit (.logError ("strconv.ParseFloat: parsing " ++ sc.Value)) acc
  else if sc.Type_ = "humidity" then
    match parseFloat? sc.Value with
    | some v => emit (.sample ⟨.humidity, v, sFields⟩) acc
    | none => emit (.logError ("strconv.ParseFloat: parsing " ++ sc.Value)) acc
  else if sc.Type_ = "occupancy" then
    if sc.Value = "true" then emit (.sample ⟨.occupancy, 1, sFields⟩) acc
    else if sc.Value = "false" then emit (.sample ⟨.occupancy, 0, sFields⟩) acc
    else emit (.logError ("unknown sensor occupancy value " ++ sc.Value)) acc
  else
    emit (.logInfo ("ignoring sensor capability " ++ sc.Type_)) acc

/-- The body of the per-sensor loop (`collector.go:176-220`): emit the in-use
sample, then dispatch each capability in order. -/
def collectSensor (tFields : List String) (s : RemoteSensor)
    (acc : List Emit) : List Emit :=
  let sFields := tFields ++ [s.ID, s.Name, s.Type_]
  let acc := emit (.sample ⟨.inUse, if s.InUse then 1 else 0, sFields⟩) acc
  s.Capability.foldl (fun a sc => collectCapability sFields sc a) acc

/-- The body of the event loop (`collector.go:160-173`): a running hold event
may emit a cool and/or a heat hold-temperature sample. -/
def collectEvent (t : Thermostat) (e : Event) (acc : List Emit) : List Emit :=
  if e.Running = true ∧ e.Type_ = "hold" then
    let acc :=
      if e.IsCoolOff = false ∧ t.Settings.HvacMode ≠ "heat" then
        emit (.sample ⟨.holdTempMetric, (e.CoolHoldTemp : ℚ) / 10,
          [t.Identifier, t.Name, "cool"]⟩) acc
      else acc
    if e.IsHeatOff = false ∧ t.Settings.HvacMode ≠ "cool" then
      emit (.sample ⟨.holdTempMetric, (e.HeatHoldTemp : ℚ) / 10,
        [t.Identifier, t.Name, "heat"]⟩) acc
    else acc
  else acc

/-- The body of the per-thermostat loop (`collector.go:144-221`): runtime
samples and hold events only when `Runtime.Connected`; the sensor loop runs
outside that guard. -/
def collectThermostat (t : Thermostat) (acc : List Emit) : List Emit :=
  let tFields := [t.Identifier, t.Name]
  let acc :=
    if t.Runtime.Connected then
      let acc := emit (.sample ⟨.actualTemperature,
        (t.Runtime.ActualTemperature : ℚ) / 10, tFields⟩) acc
      let acc := emit (.sample ⟨.targetTemperatureMax,
        (t.Runtime.DesiredCool : ℚ) / 10, tFields⟩) acc
      let acc := emit (.sample ⟨.targetTemperatureMin,
        (t.Runtime.DesiredHeat : ℚ) / 10, tFields⟩) acc
      let acc := emit (.sample ⟨.currentHvacMode, 0,
        [t.Identifier, t.Name, t.Settings.HvacMode]⟩) acc
      if t.Settings.HvacMode ≠ "off" then
        t.Events.foldl (fun a e => collectEvent t e a) acc
      else acc
    else acc
  t.RemoteSensors.foldl (fun a s => collectSensor tFields s a) acc

/-- The fixed equipment-attribute allow-list (`collector.go:232`). -/
def sAttr : List String := ["CompCool1", "AuxHeat1", "Fan"]

/-- Explicit version of the reflective `FieldByName` lookup, defined on the
three allow-listed boolean fields (the only names it is called with). -/
def fieldByName (s : ThermostatSummary) (a : String) : Bool :=
  if a = "CompCool1" then s.CompCool1
  else if a = "AuxHeat1" then s.AuxHeat1
  else if a = "Fan" then s.Fan
  else false

/-- The body of the summary loop (`collector.go:233-250`): for a connected
entry, one 0/1 sample per allow-listed attribute. -/
def collectSummary (s : ThermostatSummary) (acc : List Emit) : List Emit :=
  if s.Connected then
    sAttr.foldl
      (fun a attrName =>
        if fieldByName s attrName then
          emit (.sample ⟨.hvacInOperation, 1, [s.Identifier, s.Name, attrName]⟩) a
        else
          emit (.sample ⟨.hvacInOperation, 0, [s.Identifier, s.Name, attrName]⟩) a)
      acc
  else acc

/-- The `Collect` method (`collector.go:129-251`).  The two remote fetches are inputs
(`Except` models the Go `(result, err)` pair) together with the measured
elapsed time; the result is the ordered stream of channel sends and logs. -/
def collect (thermostatsRes : Except String (List Thermostat))
    (summaryRes : Except String (List ThermostatSummary))
    (elapsed : ℚ) : List Emit :=
  let acc := emit (.sample ⟨.fetchTime, elapsed, []⟩) []
  match thermostatsRes with
  | .error e => emit (.logError e) acc
  | .ok tt =>
    let acc := tt.foldl (fun a t => collectThermostat t a) acc
    match summaryRes with
    | .error e => emit (.logError e) acc
    | .ok ss => ss.foldl (fun a s => collectSummary s a) acc

/-- The samples on a stream, in order (channel sends only, logs dropped). -/
def samples (es : List Emit) : List Sample :=
  es.filterMap fun e =>
    match e with
    | .sample s => some s
    | _ => none

/-- The samples emitted against one given descriptor, in order. -/
def samplesFor (d : Desc) (es : List Emit) : List Sample :=
  (samples es).filter fun s => s.desc = d

/-- Number of error-log events on a stream. -/
def errCount (es : List Emit) : Nat :=
  es.countP fun e =>
    match e with
    | .logError _ => true
    | _ => false

/-! ### Structural lemmas: the accumulator folds append a pure suffix -/

/-- A fold of accumulator-appending steps appends the concatenation of the
individual steps' outputs. -/
theorem foldl_emit_eq {α : Type} (f : α → List Emit → List Emit)
    (hf : ∀ x acc, f x acc = acc ++ f x []) (xs : List α) (acc : List Emit) :
    xs.foldl (fun a x => f x a) acc = acc ++ xs.flatMap fun x => f x [] := by
  induction xs generalizing acc with
  | nil => simp
  | cons x xs ih =>
    simp only [List.foldl_cons, List.flatMap_cons]
    rw [ih (f x acc), hf x acc, List.append_assoc]

theorem flatMap_ext {α β : Type} {xs : List α} {f g : α → List β}
    (h : ∀ x ∈ xs, f x = g x) : xs.flatMap f = xs.flatMap g := by
  induction xs with
  | nil => rfl
  | cons x xs ih =>
    rw [List.flatMap_cons, List.flatMap_cons, h x (by simp),
      ih fun y hy => h y (by simp [hy])]

theorem collectCapability_frame (sF : List String) (sc : SensorCapability)
    (acc : List Emit) :
    collectCapability sF sc acc = acc ++ collectCapability sF sc [] := by
  unfold collectCapability
  repeat' split
  all_goals rfl

theorem collectSensor_eq (tF : List String) (s : RemoteSensor) (acc : List Emit) :
    collectSensor tF s acc =
      acc ++
        (.sample ⟨.inUse, if s.InUse then 1 else 0, tF ++ [s.ID, s.Name, s.Type_]⟩ ::
          s.Capability.flatMap fun sc =>
            collectCapability (tF ++ [s.ID, s.Name, s.Type_]) sc []) := by
  unfold collectSensor
  rw [foldl_emit_eq _ (collectCapability_frame _)]
  simp [emit]

theorem collectSensor_frame (tF : List String) (s : RemoteSensor) (acc : List Emit) :
    collectSensor tF s acc = acc ++ collectSensor tF s [] := by
  rw [collectSensor_eq, collectSensor_eq]
  simp

theorem collectEvent_frame (t : Thermostat) (e : Event) (acc : List Emit) :
    collectEvent t e acc = acc ++ collectEvent t e [] := by
  by_cases h1 : e.Running = true ∧ e.Type_ = "hold" <;>
    by_cases h2 : e.IsCoolOff = false ∧ t.Settings.HvacMode ≠ "heat" <;>
    by_cases h3 : e.IsHeatOff = false ∧ t.Settings.HvacMode ≠ "cool" <;>
    simp [collectEvent, emit, h1, h2, h3]

/-- Pure form of the event loop body: the cool branch's sample (if any)
followed by the heat branch's sample (if any), with all guards flattened. -/
theorem collectEvent_eq (t : Thermostat) (e : Event) :
    collectEvent t e [] =
      (if e.Running = true ∧ e.Type_ = "hold" ∧ e.IsCoolOff = false ∧
          t.Settings.HvacMode ≠ "heat" then
        [.sample ⟨.holdTempMetric, (e.CoolHoldTemp : ℚ) / 10,
          [t.Identifier, t.Name, "cool"]⟩]
      else []) ++
      (if e.Running = true ∧ e.Type_ = "hold" ∧ e.IsHeatOff = false ∧
          t.Settings.HvacMode ≠ "cool" then
        [.sample ⟨.holdTempMetric, (e.HeatHoldTemp : ℚ) / 10,
          [t.Identifier, t.Name, "heat"]⟩]
      else []) := by
  by_cases h1 : e.Running = true <;> by_cases h2 : e.Type_ = "hold" <;>
    by_cases h3 : e.IsCoolOff = false ∧ t.Settings.HvacMode ≠ "heat" <;>
    by_cases h4 : e.IsHeatOff = false ∧ t.Settings.HvacMode ≠ "cool" <;>
    simp [collectEvent, emit, h1, h2, h3, h4]

theorem foldl_collectEvent (t : Thermostat) (es : List Event) (acc : List Emit) :
    es.foldl (fun a e => collectEvent t e a) acc =
      acc ++ es.flatMap fun e => collectEvent t e [] :=
  foldl_emit_eq _ (collectEvent_frame t) es acc

theorem foldl_collectSensor (tF : List String) (ss : List RemoteSensor)
    (acc : List Emit) :
    ss.foldl (fun a s => collectSensor tF s a) acc =
      acc ++ ss.flatMap fun s => collectSensor tF s [] :=
  foldl_emit_eq _ (collectSensor_frame tF) ss acc

/-- Pure form of the per-thermostat loop body: the four runtime samples and
the hold-event samples under the `Connected` guard, then the sensor part
outside that guard. -/
theorem collectThermostat_eq (t : Thermostat) (acc : List Emit) :
    collectThermostat t acc =
      acc ++
        ((if t.Runtime.Connected then
            [.sample ⟨.actualTemperature, (t.Runtime.ActualTemperature : ℚ) / 10,
              [t.Identifier, t.Name]⟩,
             .sample ⟨.targetTemperatureMax, (t.Runtime.DesiredCool : ℚ) / 10,
              [t.Identifier, t.Name]⟩,
             .sample ⟨.targetTemperatureMin, (t.Runtime.DesiredHeat : ℚ) / 10,
              [t.Identifier, t.Name]⟩,
             .sample ⟨.currentHvacMode, 0,
              [t.Identifier, t.Name, t.Settings.HvacMode]⟩] ++
            (if t.Settings.HvacMode ≠ "off" then
              t.Events.flatMap fun e => collectEvent t e []
            else [])
          else []) ++
          t.RemoteSensors.flatMap fun s =>
            collectSensor [t.Identifier, t.Name] s []) := by
  by_cases hc : t.Runtime.Connected = true <;>
    by_cases hm : t.Settings.HvacMode = "off" <;>
    simp [collectThermostat, foldl_collectEvent, foldl_collectSensor, emit, hc, hm]

theorem collectThermostat_frame (t : Thermostat) (acc : List Emit) :
    collectThermostat t acc = acc ++ collectThermostat t [] := by
  rw [collectThermostat_eq, collectThermostat_eq]
  simp

/-- Pure form of the summary loop body: for a connected entry, one sample per
allow-listed attribute, in allow-list order. -/
theorem collectSummary_eq (s : ThermostatSummary) (acc : List Emit) :
    collectSummary s acc =
      acc ++
        (if s.Connected then
          [.sample ⟨.hvacInOperation, if s.CompCool1 then 1 else 0,
            [s.Identifier, s.Name, "CompCool1"]⟩,
           .sample ⟨.hvacInOperation, if s.AuxHeat1 then 1 else 0,
            [s.Identifier, s.Name, "AuxHeat1"]⟩,
           .sample ⟨.hvacInOperation, if s.Fan then 1 else 0,
            [s.Identifier, s.Name, "Fan"]⟩]
        else []) := by
  by_cases hc : s.Connected = true <;>
    by_cases h1 : s.CompCool1 = true <;> by_cases h2 : s.AuxHeat1 = true <;>
    by_cases h3 : s.Fan = true <;>
    simp [collectSummary, sAttr, fieldByName, emit, hc, h1, h2, h3]

theorem collectSummary_frame (s : ThermostatSummary) (acc : List Emit) :
    collectSummary s acc = acc ++ collectSummary s [] := by
  rw [collectSummary_eq, collectSummary_eq]
  simp

theorem foldl_collectThermostat (tt : List Thermostat) (acc : List Emit) :
    tt.foldl (fun a t => collectThermostat t a) acc =
      acc ++ tt.flatMap fun t => collectThermostat t [] :=
  foldl_emit_eq _ collectThermostat_frame tt acc

theorem foldl_collectSummary (ss : List ThermostatSummary) (acc : List Emit) :
    ss.foldl (fun a s => collectSummary s a) acc =
      acc ++ ss.flatMap fun s => collectSummary s [] :=
  foldl_emit_eq _ collectSummary_frame ss acc

/-- Pure form of `collect`: the latency sample first, then (depending on the
two fetch outcomes) per-thermostat output in fetch order followed by
per-summary-entry output in fetch order, with a terminating error log on a
failed fetch. -/
theorem collect_eq (ftr : Except String (List Thermostat))
    (fsr : Except String (List ThermostatSummary)) (el : ℚ) :
    collect ftr fsr el =
      .sample ⟨.fetchTime, el, []⟩ ::
        match ftr with
        | .error e => [.logError e]
        | .ok tt =>
          (tt.flatMap fun t => collectThermostat t []) ++
            match fsr with
            | .error e => [.logError e]
            | .ok ss => ss.flatMap fun s => collectSummary s [] := by
  cases ftr <;> cases fsr <;>
    simp [collect, emit, foldl_collectThermostat, foldl_collectSummary]

/-! ### Distribution lemmas for the stream projections -/

@[simp]
theorem samples_nil : samples [] = [] := rfl

@[simp]
theorem samples_cons_sample (s : Sample) (es : List Emit) :
    samples (.sample s :: es) = s :: samples es := rfl

@[simp]
theorem samples_cons_logError (m : String) (es : List Emit) :
    samples (.logError m :: es) = samples es := rfl

@[simp]
theorem samples_cons_logInfo (m : String) (es : List Emit) :
    samples (.logInfo m :: es) = samples es := rfl

@[simp]
theorem samples_append (a b : List Emit) :
    samples (a ++ b) = samples a ++ samples b :=
  List.filterMap_append a b _

theorem samples_flatMap {α : Type} (xs : List α) (f : α → List Emit) :
    samples (xs.flatMap f) = xs.flatMap fun x => samples (f x) := by
  induction xs with
  | nil => rfl
  | cons x xs ih => simp [ih]

@[simp]
theorem samplesFor_nil (d : Desc) : samplesFor d [] = [] := rfl

@[simp]
theorem samplesFor_append (d : Desc) (a b : List Emit) :
    samplesFor d (a ++ b) = samplesFor d a ++ samplesFor d b := by
  simp [samplesFor, List.filter_append]

theorem samplesFor_flatMap {α : Type} (d : Desc) (xs : List α) (f : α → List Emit) :
    samplesFor d (xs.flatMap f) = xs.flatMap fun x => samplesFor d (f x) := by
  induction xs with
  | nil => rfl
  | cons x xs ih => simp [ih]

@[simp]
theorem samplesFor_cons_sample (d : Desc) (s : Sample) (es : List Emit) :
    samplesFor d (.sample s :: es) =
      if s.desc = d then s :: samplesFor d es else samplesFor d es := by
  simp only [samplesFor, samples_cons_sample, List.filter_cons]
  by_cases hc : s.desc = d <;> simp [hc]

@[simp]
theorem samplesFor_cons_logError (d : Desc) (m : String) (es : List Emit) :
    samplesFor d (.logError m :: es) = samplesFor d es := rfl

@[simp]
theorem samplesFor_cons_logInfo (d : Desc) (m : String) (es : List Emit) :
    samplesFor d (.logInfo m :: es) = samplesFor d es := rfl

@[simp]
theorem errCount_nil : errCount [] = 0 := rfl

@[simp]
theorem errCount_cons_sample (s : Sample) (es : List Emit) :
    errCount (.sample s :: es) = errCount es := by
  simp [errCount, List.countP_cons]

@[simp]
theorem errCount_cons_logError (m : String) (es : List Emit) :
    errCount (.logError m :: es) = errCount es + 1 := by
  simp [errCount, List.countP_cons]

@[simp]
theorem errCount_cons_logInfo (m : String) (es : List Emit) :
    errCount (.logInfo m :: es) = errCount es := by
  simp [errCount, List.countP_cons]

@[simp]
theorem errCount_append (a b : List Emit) :
    errCount (a ++ b) = errCount a + errCount b :=
  List.countP_append _ a b

/-! ### What each loop body can emit -/

/-- Every sample produced by one capability dispatch is a sensor-capability
sample carrying exactly the sensor label tuple. -/
theorem collectCapability_mem (sF : List String) (sc : SensorCapability) :
    ∀ x ∈ samples (collectCapability sF sc []),
      (x.desc = .temperature ∨ x.desc = .humidity ∨ x.desc = .occupancy) ∧
        x.labels = sF := by
  intro x hx
  unfold collectCapability at hx
  repeat' split at hx
  all_goals simp [emit] at hx
  all_goals simp [hx]

/-- Every sample produced for one sensor is one of the four sensor metrics and
carries exactly the sensor label tuple. -/
theorem collectSensor_mem (tF : List String) (s : RemoteSensor) :
    ∀ x ∈ samples (collectSensor tF s []),
      (x.desc = .inUse ∨ x.desc = .temperature ∨ x.desc = .humidity ∨
          x.desc = .occupancy) ∧
        x.labels = tF ++ [s.ID, s.Name, s.Type_] := by
  intro x hx
  rw [collectSensor_eq] at hx
  simp only [List.nil_append, samples_cons_sample, List.mem_cons,
    samples_flatMap, List.mem_flatMap] at hx
  rcases hx with hx | ⟨sc, _, hx⟩
  · simp [hx]
  · rcases collectCapability_mem _ sc x hx with ⟨h | h | h, hl⟩ <;> simp [h, hl]

/-- Every sample produced by one event-loop iteration is a hold-temperature
sample labeled (id, name, "cool"/"heat"). -/
theorem collectEvent_mem (t : Thermostat) (e : Event) :
    ∀ x ∈ samples (collectEvent t e []),
      x.desc = .holdTempMetric ∧
        (x.labels = [t.Identifier, t.Name, "cool"] ∨
          x.labels = [t.Identifier, t.Name, "heat"]) := by
  intro x hx
  rw [collectEvent_eq] at hx
  repeat' split at hx
  all_goals simp at hx
  all_goals first
  | rcases hx with hx | hx <;> simp [hx]
  | simp [hx]

/-- Every sample produced for one summary entry is an hvac-in-operation
sample labeled (id, name, attribute). -/
theorem collectSummary_mem (s : ThermostatSummary) :
    ∀ x ∈ samples (collectSummary s []),
      x.desc = .hvacInOperation ∧
        (x.labels = [s.Identifier, s.Name, "CompCool1"] ∨
          x.labels = [s.Identifier, s.Name, "AuxHeat1"] ∨
          x.labels = [s.Identifier, s.Name, "Fan"]) := by
  intro x hx
  rw [collectSummary_eq] at hx
  split at hx
  all_goals simp at hx
  rcases hx with hx | hx | hx <;> simp [hx]

/-- Sensor samples never use a thermostat/runtime descriptor; filtering the
sensor part of the stream by one of those descriptors yields nothing. -/
theorem samplesFor_sensors_nil (tF : List String) (ss : List RemoteSensor)
    (d : Desc) (hd : d ≠ .inUse ∧ d ≠ .temperature ∧ d ≠ .humidity ∧
      d ≠ .occupancy) :
    samplesFor d (ss.flatMap fun s => collectSensor tF s []) = [] := by
  unfold samplesFor
  rw [List.filter_eq_nil_iff]
  intro a ha
  rw [samples_flatMap] at ha
  rw [List.mem_flatMap] at ha
  rcases ha with ⟨s, _, ha⟩
  rcases (collectSensor_mem tF s a ha).1 with h | h | h | h <;>
    simp [h] <;> [exact fun hh => hd.1 hh.symm;
      exact fun hh => hd.2.1 hh.symm;
      exact fun hh => hd.2.2.1 hh.symm;
      exact fun hh => hd.2.2.2 hh.symm]

/-- Event samples never use a descriptor other than hold-temperature. -/
theorem samplesFor_events_nil (t : Thermostat) (es : List Event) (d : Desc)
    (hd : d ≠ .holdTempMetric) :
    samplesFor d (es.flatMap fun e => collectEvent t e []) = [] := by
  unfold samplesFor
  rw [List.filter_eq_nil_iff]
  intro a ha
  rw [samples_flatMap, List.mem_flatMap] at ha
  rcases ha with ⟨e, _, ha⟩
  have h := (collectEvent_mem t e a ha).1
  simp [h]
  exact fun hh => hd hh.symm

/-- Every sample of the per-thermostat output avoids the fetch-latency and
equipment descriptors and respects the descriptor's label arity. -/
theorem collectThermostat_mem (t : Thermostat) :
    ∀ x ∈ samples (collectThermostat t []),
      (x.desc ≠ .hvacInOperation ∧ x.desc ≠ .fetchTime) ∧
        x.labels.length = (descLabels x.desc).length := by
  intro x hx
  rw [collectThermostat_eq, List.nil_append, samples_append, List.mem_append] at hx
  rcases hx with hx | hx
  · split at hx
    · rw [samples_append, List.mem_append] at hx
      rcases hx with hx | hx
      · simp only [samples_cons_sample, samples_nil, List.mem_cons,
          List.not_mem_nil, or_false] at hx
        rcases hx with hx | hx | hx | hx <;>
          simp [hx, descLabels, runtimeLabels]
      · split at hx
        · rw [samples_flatMap, List.mem_flatMap] at hx
          rcases hx with ⟨e, _, hx⟩
          rcases collectEvent_mem t e x hx with ⟨hdx, hl | hl⟩ <;>
            simp [hdx, hl, descLabels, runtimeLabels]
        · simp at hx
    · simp at hx
  · rw [samples_flatMap, List.mem_flatMap] at hx
    rcases hx with ⟨s, _, hx⟩
    rcases collectSensor_mem _ s x hx with ⟨hdx, hl⟩
    rcases hdx with h | h | h | h <;>
      simp [h, hl, descLabels, sensorLabels, runtimeLabels]

/-- No thermostat-loop output ever carries the equipment descriptor. -/
theorem samplesFor_thermostats_hvac_nil (tt : List Thermostat) :
    samplesFor .hvacInOperation
      (tt.flatMap fun t => collectThermostat t []) = [] := by
  unfold samplesFor
  rw [List.filter_eq_nil_iff]
  intro a ha
  rw [samples_flatMap, List.mem_flatMap] at ha
  rcases ha with ⟨t, _, ha⟩
  have h := (collectThermostat_mem t a ha).1.1
  simp [h]

/-! ### The claims -/

/-- C2: when the primary device-state fetch fails, `Collect` emits exactly one
sample — the fetch-latency sample carrying the elapsed time — and no
thermostat, sensor, or equipment samples; the stream is just that sample
followed by the error log. -/
theorem primary_fetch_failure (e : String)
    (fsr : Except String (List ThermostatSummary)) (el : ℚ) :
    samples (collect (.error e) fsr el) = [⟨.fetchTime, el, []⟩] ∧
    collect (.error e) fsr el =
      [.sample ⟨.fetchTime, el, []⟩, .logError e] := by
  constructor
  · rw [collect_eq]
    rfl
  · rw [collect_eq]

/-- C7: when the primary fetch succeeds but the equipment-summary fetch fails,
the stream keeps the latency sample and all per-thermostat output (in fetch
order) followed by the error log, and contains no hvac-in-operation
(equipment) samples. -/
theorem secondary_fetch_failure (tt : List Thermostat) (e : String) (el : ℚ) :
    collect (.ok tt) (.error e) el =
      .sample ⟨.fetchTime, el, []⟩ ::
        ((tt.flatMap fun t => collectThermostat t []) ++ [.logError e]) ∧
    samplesFor .hvacInOperation (collect (.ok tt) (.error e) el) = [] := by
  constructor
  · rw [collect_eq]
  · rw [collect_eq]
    show samplesFor _ (_ :: _) = _
    simp only [samplesFor, samples_cons_sample, List.filter_cons]
    rw [samples_append]
    simp only [List.filter_append]
    have h1 := samplesFor_thermostats_hvac_nil tt
    unfold samplesFor at h1
    simp [h1]

/-- C8: a connected summary entry yields exactly three hvac-in-operation
samples, one per allow-listed attribute (CompCool1, AuxHeat1, Fan), each
0/1-valued from the corresponding boolean field and labeled
(id, name, attribute); a disconnected entry yields nothing. -/
theorem equipment_summary (s : ThermostatSummary) :
    collectSummary s [] =
      if s.Connected then
        [.sample ⟨.hvacInOperation, if s.CompCool1 then 1 else 0,
          [s.Identifier, s.Name, "CompCool1"]⟩,
         .sample ⟨.hvacInOperation, if s.AuxHeat1 then 1 else 0,
          [s.Identifier, s.Name, "AuxHeat1"]⟩,
         .sample ⟨.hvacInOperation, if s.Fan then 1 else 0,
          [s.Identifier, s.Name, "Fan"]⟩]
      else [] := by
  have h := collectSummary_eq s []
  simpa using h

/-- C10: the stream is a deterministic function of the two fetch results with
a fixed order: the latency sample always comes first; thermostat and sensor
samples (in fetch order, events and capabilities in list order) all precede
every equipment sample; summary entries follow in fetch order. -/
theorem emission_order (el : ℚ) :
    (∀ (e : String) (fsr : Except String (List ThermostatSummary)),
      collect (.error e) fsr el =
        [.sample ⟨.fetchTime, el, []⟩, .logError e]) ∧
    (∀ (tt : List Thermostat) (e : String),
      collect (.ok tt) (.error e) el =
        .sample ⟨.fetchTime, el, []⟩ ::
          ((tt.flatMap fun t => collectThermostat t []) ++ [.logError e])) ∧
    (∀ (tt : List Thermostat) (ss : List ThermostatSummary),
      collect (.ok tt) (.ok ss) el =
        .sample ⟨.fetchTime, el, []⟩ ::
          ((tt.flatMap fun t => collectThermostat t []) ++
            ss.flatMap fun s => collectSummary s [])) ∧
    (∀ t : Thermostat,
      collectThermostat t [] =
        (if t.Runtime.Connected then
          [.sample ⟨.actualTemperature, (t.Runtime.ActualTemperature : ℚ) / 10,
            [t.Identifier, t.Name]⟩,
           .sample ⟨.targetTemperatureMax, (t.Runtime.DesiredCool : ℚ) / 10,
            [t.Identifier, t.Name]⟩,
           .sample ⟨.targetTemperatureMin, (t.Runtime.DesiredHeat : ℚ) / 10,
            [t.Identifier, t.Name]⟩,
           .sample ⟨.currentHvacMode, 0,
            [t.Identifier, t.Name, t.Settings.HvacMode]⟩] ++
          (if t.Settings.HvacMode ≠ "off" then
            t.Events.flatMap fun e => collectEvent t e []
          else [])
        else []) ++
          t.RemoteSensors.flatMap fun s =>
            collectSensor [t.Identifier, t.Name] s []) ∧
    (∀ (tF : List String) (s : RemoteSensor),
      collectSensor tF s [] =
        .sample ⟨.inUse, if s.InUse then 1 else 0,
          tF ++ [s.ID, s.Name, s.Type_]⟩ ::
          s.Capability.flatMap fun sc =>
            collectCapability (tF ++ [s.ID, s.Name, s.Type_]) sc []) := by
  refine ⟨fun e fsr => by rw [collect_eq], fun tt e => by rw [collect_eq],
    fun tt ss => by rw [collect_eq], fun t => ?_, fun tF s => ?_⟩
  · have h := collectThermostat_eq t []
    simpa using h
  · have h := collectSensor_eq tF s []
    simpa using h

/-- C1 counterexample: a thermostat with `Runtime.Connected = false` and one
remote sensor still makes `Collect` emit a sample for that thermostat — the
sensor loop sits outside the `Connected` guard, so the in-use sample appears
even though the thermostat is disconnected. -/
theorem disconnected_thermostat_cex :
    samples (collect
        (.ok [⟨"T2", "Away", ⟨false, 0, 0, 0⟩, ⟨"auto"⟩, [],
          [⟨"S1", "Kitchen", "ecobee3_remote_sensor", true, []⟩]⟩])
        (.ok []) 0) =
      [⟨.fetchTime, 0, []⟩,
       ⟨.inUse, 1, ["T2", "Away", "S1", "Kitchen", "ecobee3_remote_sensor"]⟩] :=
  rfl

/-- C1 (amended): a thermostat with `Runtime.Connected = false` contributes no
runtime samples (actual temperature, target min/max, hvac mode, hold
temperature), but its remote sensors are still processed and their sensor
samples are still emitted. -/
theorem disconnected_thermostat (t : Thermostat)
    (h : t.Runtime.Connected = false) :
    collectThermostat t [] =
      (t.RemoteSensors.flatMap fun s =>
        collectSensor [t.Identifier, t.Name] s []) ∧
    samplesFor .actualTemperature (collectThermostat t []) = [] ∧
    samplesFor .targetTemperatureMax (collectThermostat t []) = [] ∧
    samplesFor .targetTemperatureMin (collectThermostat t []) = [] ∧
    samplesFor .currentHvacMode (collectThermostat t []) = [] ∧
    samplesFor .holdTempMetric (collectThermostat t []) = [] := by
  have he : collectThermostat t [] =
      t.RemoteSensors.flatMap fun s =>
        collectSensor [t.Identifier, t.Name] s [] := by
    rw [collectThermostat_eq]
    simp [h]
  refine ⟨he, ?_, ?_, ?_, ?_, ?_⟩ <;> rw [he] <;>
    exact samplesFor_sensors_nil _ _ _ (by decide)

/-- C1 witness: the amended theorem applied to a concrete disconnected
thermostat carrying one unused sensor. -/
theorem disconnected_thermostat_witness :
    collectThermostat ⟨"T2", "Away", ⟨false, 0, 0, 0⟩, ⟨"auto"⟩, [],
        [⟨"S1", "Kitchen", "ecobee3_remote_sensor", true, []⟩]⟩ [] =
      [.sample ⟨.inUse, 1,
        ["T2", "Away", "S1", "Kitchen", "ecobee3_remote_sensor"]⟩] := by
  have h := (disconnected_thermostat
    ⟨"T2", "Away", ⟨false, 0, 0, 0⟩, ⟨"auto"⟩, [],
      [⟨"S1", "Kitchen", "ecobee3_remote_sensor", true, []⟩]⟩ rfl).1
  simpa using h

/-- C4: for a connected thermostat, the actual-temperature sample carries
`ActualTemperature / 10`, the target-max sample carries `DesiredCool / 10`,
and the target-min sample carries `DesiredHeat / 10`, each emitted exactly
once with labels (id, name). -/
theorem runtime_sample_values (t : Thermostat)
    (h : t.Runtime.Connected = true) :
    samplesFor .actualTemperature (collectThermostat t []) =
      [⟨.actualTemperature, (t.Runtime.ActualTemperature : ℚ) / 10,
        [t.Identifier, t.Name]⟩] ∧
    samplesFor .targetTemperatureMax (collectThermostat t []) =
      [⟨.targetTemperatureMax, (t.Runtime.DesiredCool : ℚ) / 10,
        [t.Identifier, t.Name]⟩] ∧
    samplesFor .targetTemperatureMin (collectThermostat t []) =
      [⟨.targetTemperatureMin, (t.Runtime.DesiredHeat : ℚ) / 10,
        [t.Identifier, t.Name]⟩] := by
  have hs := samplesFor_sensors_nil [t.Identifier, t.Name] t.RemoteSensors
  have hev := samplesFor_events_nil t t.Events
  refine ⟨?_, ?_, ?_⟩ <;>
    rw [collectThermostat_eq, List.nil_append, samplesFor_append]
  · rw [hs .actualTemperature (by decide)]
    by_cases hm : t.Settings.HvacMode = "off" <;>
      simp [h, hm, hev .actualTemperature (by decide)]
  · rw [hs .targetTemperatureMax (by decide)]
    by_cases hm : t.Settings.HvacMode = "off" <;>
      simp [h, hm, hev .targetTemperatureMax (by decide)]
  · rw [hs .targetTemperatureMin (by decide)]
    by_cases hm : t.Settings.HvacMode = "off" <;>
      simp [h, hm, hev .targetTemperatureMin (by decide)]

/-- C4 witness: the spec's §8 scenario thermostat. -/
theorem runtime_sample_values_witness :
    samplesFor .actualTemperature
        (collectThermostat
          ⟨"T1", "Home", ⟨true, 705, 720, 680⟩, ⟨"auto"⟩, [], []⟩ []) =
      [⟨.actualTemperature, (705 : ℚ) / 10, ["T1", "Home"]⟩] :=
  (runtime_sample_values
    ⟨"T1", "Home", ⟨true, 705, 720, 680⟩, ⟨"auto"⟩, [], []⟩ rfl).1

/-- C3: for a connected thermostat the hold-temperature samples are exactly
one cool-labeled sample with value `CoolHoldTemp / 10` for each event with
`HvacMode ≠ "off"`, `Running`, `Type = "hold"`, `¬IsCoolOff`,
`HvacMode ≠ "heat"`, and one heat-labeled sample with value
`HeatHoldTemp / 10` under the heat-side conditions, per qualifying event in
list order with no deduplication. -/
theorem hold_characterization (t : Thermostat)
    (h : t.Runtime.Connected = true) :
    samplesFor .holdTempMetric (collectThermostat t []) =
      t.Events.flatMap fun e =>
        (if t.Settings.HvacMode ≠ "off" ∧ e.Running = true ∧
            e.Type_ = "hold" ∧ e.IsCoolOff = false ∧
            t.Settings.HvacMode ≠ "heat" then
          [⟨.holdTempMetric, (e.CoolHoldTemp : ℚ) / 10,
            [t.Identifier, t.Name, "cool"]⟩]
        else []) ++
        (if t.Settings.HvacMode ≠ "off" ∧ e.Running = true ∧
            e.Type_ = "hold" ∧ e.IsHeatOff = false ∧
            t.Settings.HvacMode ≠ "cool" then
          [⟨.holdTempMetric, (e.HeatHoldTemp : ℚ) / 10,
            [t.Identifier, t.Name, "heat"]⟩]
        else []) := by
  have hev : ∀ e ∈ t.Events, ¬t.Settings.HvacMode = "off" →
      samplesFor .holdTempMetric (collectEvent t e []) =
        (if t.Settings.HvacMode ≠ "off" ∧ e.Running = true ∧
            e.Type_ = "hold" ∧ e.IsCoolOff = false ∧
            t.Settings.HvacMode ≠ "heat" then
          [⟨.holdTempMetric, (e.CoolHoldTemp : ℚ) / 10,
            [t.Identifier, t.Name, "cool"]⟩]
        else []) ++
        (if t.Settings.HvacMode ≠ "off" ∧ e.Running = true ∧
            e.Type_ = "hold" ∧ e.IsHeatOff = false ∧
            t.Settings.HvacMode ≠ "cool" then
          [⟨.holdTempMetric, (e.HeatHoldTemp : ℚ) / 10,
            [t.Identifier, t.Name, "heat"]⟩]
        else []) := by
    intro e _ hm
    rw [collectEvent_eq, samplesFor_append]
    by_cases h3 : e.Running = true ∧ e.Type_ = "hold" ∧
      e.IsCoolOff = false ∧ t.Settings.HvacMode ≠ "heat" <;>
      by_cases h4 : e.Running = true ∧ e.Type_ = "hold" ∧
        e.IsHeatOff = false ∧ t.Settings.HvacMode ≠ "cool" <;>
      simp [h3, h4, hm, apply_ite (samplesFor Desc.holdTempMetric)]
  rw [collectThermostat_eq, List.nil_append, samplesFor_append,
    samplesFor_sensors_nil _ _ _ (by decide), List.append_nil, if_pos h]
  by_cases hm : t.Settings.HvacMode = "off"
  · rw [if_neg fun hcon => hcon hm]
    simp [hm]
  · rw [if_pos hm, samplesFor_append, samplesFor_flatMap,
      flatMap_ext fun e he => hev e he hm]
    simp

/-- C3 witness: the spec's §8 dual-setpoint hold scenario. -/
theorem hold_characterization_witness :
    samplesFor .holdTempMetric
        (collectThermostat
          ⟨"T1", "Home", ⟨true, 705, 720, 680⟩, ⟨"auto"⟩,
            [⟨"hold", true, 730, 690, false, false⟩], []⟩ []) =
      [⟨.holdTempMetric, (730 : ℚ) / 10, ["T1", "Home", "cool"]⟩,
       ⟨.holdTempMetric, (690 : ℚ) / 10, ["T1", "Home", "heat"]⟩] := by
  rw [hold_characterization
    ⟨"T1", "Home", ⟨true, 705, 720, 680⟩, ⟨"auto"⟩,
      [⟨"hold", true, 730, 690, false, false⟩], []⟩ rfl]
  simp

/-- C5: an occupancy capability with value "true" yields one occupancy sample
of value 1, "false" one of value 0, and any other string no sample and one
logged error; the sensor's other capabilities are processed independently
(the sensor output is the in-use sample followed by each capability's output
in list order). -/
theorem occupancy_dispatch (sF : List String) (sc : SensorCapability)
    (h : sc.Type_ = "occupancy") :
    (sc.Value = "true" →
      collectCapability sF sc [] = [.sample ⟨.occupancy, 1, sF⟩]) ∧
    (sc.Value = "false" →
      collectCapability sF sc [] = [.sample ⟨.occupancy, 0, sF⟩]) ∧
    (sc.Value ≠ "true" → sc.Value ≠ "false" →
      samples (collectCapability sF sc []) = [] ∧
        errCount (collectCapability sF sc []) = 1) ∧
    (∀ (tF : List String) (s : RemoteSensor),
      collectSensor tF s [] =
        .sample ⟨.inUse, if s.InUse then 1 else 0,
          tF ++ [s.ID, s.Name, s.Type_]⟩ ::
          s.Capability.flatMap fun c =>
            collectCapability (tF ++ [s.ID, s.Name, s.Type_]) c []) := by
  refine ⟨fun hv => ?_, fun hv => ?_, fun hv1 hv2 => ?_,
    fun tF s => by simpa using collectSensor_eq tF s []⟩
  · simp [collectCapability, emit, h, hv]
  · simp [collectCapability, emit, h, hv]
  · simp [collectCapability, emit, h, hv1, hv2]

/-- C5 witness: the three occupancy cases at concrete values. -/
theorem occupancy_dispatch_witness :
    collectCapability [] ⟨"occupancy", "true"⟩ [] =
        [.sample ⟨.occupancy, 1, []⟩] ∧
    collectCapability [] ⟨"occupancy", "false"⟩ [] =
        [.sample ⟨.occupancy, 0, []⟩] ∧
    samples (collectCapability [] ⟨"occupancy", "maybe"⟩ []) = [] ∧
    errCount (collectCapability [] ⟨"occupancy", "maybe"⟩ []) = 1 :=
  ⟨(occupancy_dispatch [] ⟨"occupancy", "true"⟩ rfl).1 rfl,
   (occupancy_dispatch [] ⟨"occupancy", "false"⟩ rfl).2.1 rfl,
   (occupancy_dispatch [] ⟨"occupancy", "maybe"⟩ rfl).2.2.1
     (by decide) (by decide)⟩

/-- C6: a temperature/humidity capability whose value fails numeric parsing
yields no sample and exactly one logged error; on success temperature emits
the parsed value over 10 and humidity the unscaled value; an unrecognized
capability type yields one info log, no sample and no error; capabilities,
sensors and thermostats are processed independently of each other's
outcomes. -/
theorem capability_parse_isolation (sF : List String) (sc : SensorCapability) :
    (sc.Type_ = "temperature" → parseFloat? sc.Value = none →
      samples (collectCapability sF sc []) = [] ∧
        errCount (collectCapability sF sc []) = 1) ∧
    (sc.Type_ = "humidity" → parseFloat? sc.Value = none →
      samples (collectCapability sF sc []) = [] ∧
        errCount (collectCapability sF sc []) = 1) ∧
    (∀ v : ℚ, sc.Type_ = "temperature" → parseFloat? sc.Value = some v →
      collectCapability sF sc [] = [.sample ⟨.temperature, v / 10, sF⟩]) ∧
    (∀ v : ℚ, sc.Type_ = "humidity" → parseFloat? sc.Value = some v →
      collectCapability sF sc [] = [.sample ⟨.humidity, v, sF⟩]) ∧
    (sc.Type_ ≠ "temperature" → sc.Type_ ≠ "humidity" →
      sc.Type_ ≠ "occupancy" →
      samples (collectCapability sF sc []) = [] ∧
        errCount (collectCapability sF sc []) = 0) ∧
    (∀ (tF : List String) (s : RemoteSensor),
      collectSensor tF s [] =
        .sample ⟨.inUse, if s.InUse then 1 else 0,
          tF ++ [s.ID, s.Name, s.Type_]⟩ ::
          s.Capability.flatMap fun c =>
            collectCapability (tF ++ [s.ID, s.Name, s.Type_]) c []) ∧
    (∀ (tt : List Thermostat) (ss : List ThermostatSummary) (el : ℚ),
      collect (.ok tt) (.ok ss) el =
        .sample ⟨.fetchTime, el, []⟩ ::
          ((tt.flatMap fun t => collectThermostat t []) ++
            ss.flatMap fun s => collectSummary s [])) := by
  refine ⟨fun ht hp => ?_, fun ht hp => ?_, fun v ht hp => ?_,
    fun v ht hp => ?_, fun h1 h2 h3 => ?_,
    fun tF s => by simpa using collectSensor_eq tF s [],
    fun tt ss el => by rw [collect_eq]⟩
  · simp [collectCapability, emit, ht, hp]
  · simp [collectCapability, emit, ht, hp]
  · simp [collectCapability, emit, ht, hp]
  · simp [collectCapability, emit, ht, hp]
  · simp [collectCapability, emit, h1, h2, h3]

/-- C6 witness: the spec's §8 malformed-humidity scenario and a successful
parse. -/
theorem capability_parse_isolation_witness :
    (samples (collectCapability [] ⟨"humidity", "abc"⟩ []) = [] ∧
      errCount (collectCapability [] ⟨"humidity", "abc"⟩ []) = 1) ∧
    collectCapability [] ⟨"temperature", "701"⟩ [] =
      [.sample ⟨.temperature, (701 : ℚ) / 10, []⟩] :=
  ⟨(capability_parse_isolation [] ⟨"humidity", "abc"⟩).2.1 rfl (by decide),
   (capability_parse_isolation [] ⟨"temperature", "701"⟩).2.2.1 701 rfl
     (by
       show parseFloat? ("701") = some 701
       have h : parseFloat? ("701") = some ((1 : ℚ) * ((701 : Nat) : ℚ)) := rfl
       rw [h]
       norm_num)⟩

/-- C9: every sample `Collect` emits carries exactly as many label values as
its descriptor declares label names (0 for fetch-latency, 2 for the plain
thermostat metrics, 3 for hvac-mode/hold-temperature/hvac-in-operation, 5
for the sensor metrics). -/
theorem label_arity (ftr : Except String (List Thermostat))
    (fsr : Except String (List ThermostatSummary)) (el : ℚ) :
    ∀ x ∈ samples (collect ftr fsr el),
      x.labels.length = (descLabels x.desc).length := by
  intro x hx
  rw [collect_eq] at hx
  cases ftr with
  | error e =>
    simp only [samples_cons_sample, samples_cons_logError, samples_nil,
      List.mem_cons, List.not_mem_nil, or_false] at hx
    simp [hx, descLabels]
  | ok tt =>
    simp only [samples_cons_sample, List.mem_cons, samples_append,
      List.mem_append] at hx
    rcases hx with hx | hx | hx
    · simp [hx, descLabels]
    · rw [samples_flatMap, List.mem_flatMap] at hx
      rcases hx with ⟨t, _, hx⟩
      exact (collectThermostat_mem t x hx).2
    · cases fsr with
      | error e => simp at hx
      | ok ss =>
        rw [samples_flatMap, List.mem_flatMap] at hx
        rcases hx with ⟨s, _, hx⟩
        rcases collectSummary_mem s x hx with ⟨hd, hl | hl | hl⟩ <;>
          simp [hd, hl, descLabels, runtimeLabels]

/-- C9 witness: the invariant applied to a concrete scrape containing a
thermostat sample. -/
theorem label_arity_witness :
    (["T1", "Home"] : List String).length =
      (descLabels .actualTemperature).length :=
  label_arity
    (.ok [⟨"T1", "Home", ⟨true, 705, 720, 680⟩, ⟨"auto"⟩, [], []⟩])
    (.ok []) 0
    ⟨.actualTemperature, (705 : ℚ) / 10, ["T1", "Home"]⟩
    (by simp [collect_eq, collectThermostat_eq])

end Ecobee
